import Mathlib

/-!
Verification of the CrewAI–LangWatch demo: the conversation adapter
(`adapters/crew_adapter.py`) and the heuristic judge scorers
(`scenarios/judges/custom_judges.py`).

Python strings are modelled by their character lists (`String.data`);
`str.lower`, `str.strip`, `str.split`, `str.count` and substring tests are
embedded as executable functions on `List Char`.  Python floats are modelled
by rationals: every constant in the scoring code is a short decimal and the
claims concern order comparisons and clamping only.
-/

/-- Python `needle in hay` (substring test) on char lists. -/
def containsList (hay needle : List Char) : Bool := decide (needle <:+: hay)

/-- Python `str.lower` (ASCII case folding, which covers all keyword lists). -/
def lowerChars (l : List Char) : List Char := l.map Char.toLower

/-- Helper for `pyWords`: accumulates the current (reversed) token. -/
def splitWsAux : List Char → List Char → List (List Char)
  | [], acc => if acc.isEmpty then [] else [acc.reverse]
  | c :: cs, acc =>
    if c.isWhitespace then
      if acc.isEmpty then splitWsAux cs [] else acc.reverse :: splitWsAux cs []
    else splitWsAux cs (c :: acc)

/-- Python `str.split()` with no argument: whitespace-separated tokens, never
empty. -/
def pyWords (l : List Char) : List (List Char) := splitWsAux l []

/-- A chat message as used by the adapter and the judges: a `role`
(`user` / `assistant` / `system` / other) and text content. -/
structure Message where
  role : String
  content : String
deriving DecidableEq

/-- Inner word loop of `CrewAIAdapter._extract_customer_id`
(crew_adapter.py lines 56-59): return the word following the first word
that contains `"cust"` **and** has a following word; otherwise nothing. -/
def findCustFollower : List (List Char) → Option (List Char)
  | [] => none
  | [_] => none
  | w :: next :: rest =>
    if containsList w "cust".data then some next else findCustFollower (next :: rest)

/-- `CrewAIAdapter._extract_customer_id` (crew_adapter.py lines 48-62). -/
def extract_customer_id : List Message → String
  | [] => "CUST001"
  | m :: rest =>
    let content := lowerChars m.content.data
    if containsList content "customer id".data || containsList content "cust".data then
      match findCustFollower (pyWords content) with
      | some w => ⟨w⟩
      | none => extract_customer_id rest
    else extract_customer_id rest

example : extract_customer_id [⟨"user", "my cust id is 4477"⟩] = "id" := by decide
example : extract_customer_id [⟨"user", "hello there"⟩] = "CUST001" := by decide
example : extract_customer_id [⟨"user", "this is cust"⟩] = "CUST001" := by decide
example : extract_customer_id [⟨"user", "the customer X"⟩] = "x" := by decide

/-- Python `str.strip()`: drop leading and trailing whitespace. -/
def stripChars (l : List Char) : List Char :=
  ((l.dropWhile Char.isWhitespace).reverse.dropWhile Char.isWhitespace).reverse

/-- Python `str.split(sep)` restricted to a single-character separator `'\n'`,
as used by `response.split('\n')`. -/
def splitLines : List Char → List (List Char)
  | [] => [[]]
  | c :: cs =>
    if c = '\n' then [] :: splitLines cs
    else
      match splitLines cs with
      | [] => [[c]]
      | l :: ls => (c :: l) :: ls

/-- Python `'\n'.join(lines)`. -/
def joinLines : List (List Char) → List Char
  | [] => []
  | [l] => l
  | l :: ls => l ++ '\n' :: joinLines ls

/-- The execution-log markers skipped by `CrewAIAdapter._format_crew_response`
(crew_adapter.py lines 141-143). -/
def skip_phrases : List (List Char) :=
  ["agent:".data, "task:".data, "crew:".data, "executing".data,
   "delegating".data, "final answer:".data]

/-- A line the cleaner keeps: not an execution-log line, non-blank after
stripping, and not starting with `[` or `##` (crew_adapter.py lines 139-148). -/
def keepLine (line : List Char) : Bool :=
  !(skip_phrases.any fun p => containsList (lowerChars line) p) &&
    !(stripChars line).isEmpty &&
    !("[".data.isPrefixOf line) &&
    !("##".data.isPrefixOf line)

/-- The kept lines of the response, each stripped, in order
(crew_adapter.py lines 136-148). -/
def cleanedLines (response : String) : List (List Char) :=
  ((splitLines response.data).filter keepLine).map stripChars

/-- `CrewAIAdapter._format_crew_response` (crew_adapter.py lines 133-154):
join the kept stripped lines with newlines, falling back to the original
response when nothing is kept. -/
def format_crew_response (response : String) : String :=
  let cl := cleanedLines response
  if cl.isEmpty then response else ⟨joinLines cl⟩

example : format_crew_response "Agent: working\n[log]\n## hdr\n   " =
    "Agent: working\n[log]\n## hdr\n   " := by decide
example : format_crew_response "  [a]\nb" = "[a]\nb" := by decide
example : format_crew_response (format_crew_response "  [a]\nb") = "b" := by decide
example : format_crew_response "hello\nworld" = "hello\nworld" := by decide
example : format_crew_response "Final Answer: yes\n  done " = "done" := by decide

/-- Fuel-driven core of `countOcc`; each step consumes at least one character,
so `l.length` fuel is always enough. -/
def countOccAux (pat : List Char) : List Char → Nat → Nat
  | _, 0 => 0
  | [], _ => 0
  | c :: cs, fuel + 1 =>
    if pat.isPrefixOf (c :: cs) && !pat.isEmpty then
      1 + countOccAux pat (cs.drop (pat.length - 1)) fuel
    else countOccAux pat cs fuel

/-- Python `str.count(pat)` for non-empty `pat`: non-overlapping occurrence
count, scanning left to right. -/
def countOcc (pat l : List Char) : Nat := countOccAux pat l l.length

/-- Fuel-driven core of `splitOnList`. -/
def splitOnListAux (sep : List Char) : List Char → Nat → List (List Char)
  | _, 0 => [[]]
  | [], _ => [[]]
  | c :: cs, fuel + 1 =>
    if sep.isPrefixOf (c :: cs) && !sep.isEmpty then
      [] :: splitOnListAux sep (cs.drop (sep.length - 1)) fuel
    else
      match splitOnListAux sep cs fuel with
      | [] => [[c]]
      | l :: ls => (c :: l) :: ls

/-- Python `str.split(sep)` for non-empty `sep`: non-overlapping leftmost
splitting, keeping empty pieces. -/
def splitOnList (sep l : List Char) : List (List Char) := splitOnListAux sep l l.length

example : splitOnList "manager".data "a manager here".data = ["a ".data, " here".data] := by decide
example : countOcc "AGENT:".data "AGENT: x AGENT: y".data = 2 := by decide

/-- Number of indicator strings present in the conversation, both sides
lowercased, each indicator counted once regardless of multiplicity: this is
the common shape of the scoring loops in custom_judges.py. -/
def countFound (conv : String) (inds : List String) : Nat :=
  (inds.filter fun i => containsList (lowerChars conv.data) (lowerChars i.data)).length

/-- Indicator list of `CustomerServiceQualityJudge._evaluate_empathy`. -/
def empathy_indicators : List String :=
  ["understand", "sorry", "apologize", "frustrating", "difficult",
   "appreciate", "thank you", "I can see", "I realize"]

/-- `CustomerServiceQualityJudge._evaluate_empathy` (custom_judges.py 119-131):
base 5.0, +0.5 per indicator present, capped at 10.0. -/
def evaluate_empathy (conv : String) : ℚ :=
  min 10.0 (5.0 + 0.5 * (countFound conv empathy_indicators : ℚ))

/-- Positive indicators of `_evaluate_professionalism`. -/
def professional_indicators : List String :=
  ["please", "thank you", "I'll help", "let me", "I can assist"]

/-- Negative indicators of `_evaluate_professionalism`. -/
def unprofessional_indicators : List String :=
  ["whatever", "I don't know", "not my problem", "can't help"]

/-- `CustomerServiceQualityJudge._evaluate_professionalism`
(custom_judges.py 133-151): base 7.0, +0.3 per positive indicator, -1.0 per
negative indicator, clamped to [1.0, 10.0]. -/
def evaluate_professionalism (conv : String) : ℚ :=
  max 1.0 (min 10.0 (7.0 + 0.3 * (countFound conv professional_indicators : ℚ)
    - 1.0 * (countFound conv unprofessional_indicators : ℚ)))

/-- Indicator list of `_evaluate_listening`. -/
def listening_indicators : List String :=
  ["you mentioned", "you said", "I understand that", "to clarify",
   "let me make sure", "if I understand correctly"]

/-- `CustomerServiceQualityJudge._evaluate_listening` (custom_judges.py
171-183): base 6.0, +0.5 per indicator, capped at 10.0. -/
def evaluate_listening (conv : String) : ℚ :=
  min 10.0 (6.0 + 0.5 * (countFound conv listening_indicators : ℚ))

/-- Indicator list of `_evaluate_problem_solving`. -/
def problem_solving_indicators : List String :=
  ["let me check", "I'll investigate", "here's what we can do",
   "solution", "resolve", "fix", "help you with"]

/-- `CustomerServiceQualityJudge._evaluate_problem_solving`
(custom_judges.py 185-197): base 5.0, +0.4 per indicator, capped at 10.0. -/
def evaluate_problem_solving (conv : String) : ℚ :=
  min 10.0 (5.0 + 0.4 * (countFound conv problem_solving_indicators : ℚ))

/-- Indicator list of `_evaluate_customer_focus`. -/
def customer_focus_indicators : List String :=
  ["for you", "your needs", "your experience", "your satisfaction",
   "what works best", "your preference"]

/-- `CustomerServiceQualityJudge._evaluate_customer_focus`
(custom_judges.py 199-211): base 6.0, +0.3 per indicator, capped at 10.0. -/
def evaluate_customer_focus (conv : String) : ℚ :=
  min 10.0 (6.0 + 0.3 * (countFound conv customer_focus_indicators : ℚ))

/-- Term list of `TechnicalAccuracyJudge._evaluate_technical_accuracy`. -/
def technical_terms : List String :=
  ["API", "authentication", "error", "code", "integration", "configuration"]

/-- `TechnicalAccuracyJudge._evaluate_technical_accuracy`
(custom_judges.py 287-301): base 7.0, +0.2 per technical term, -2.0 when
"restart your computer" co-occurs with case-sensitive "API", clamped to
[1.0, 10.0]. -/
def evaluate_technical_accuracy (conv : String) : ℚ :=
  let base := 7.0 + 0.2 * (countFound conv technical_terms : ℚ)
  let adjusted := if containsList (lowerChars conv.data) "restart your computer".data
      && containsList conv.data "API".data then base - 2.0 else base
  max 1.0 (min 10.0 adjusted)

/-- Indicator list of `_evaluate_solution_quality`. -/
def solution_indicators : List String :=
  ["step by step", "first", "then", "next", "finally",
   "check", "verify", "test", "try"]

/-- `TechnicalAccuracyJudge._evaluate_solution_quality`
(custom_judges.py 303-315): base 6.0, +0.3 per indicator, capped at 10.0. -/
def evaluate_solution_quality (conv : String) : ℚ :=
  min 10.0 (6.0 + 0.3 * (countFound conv solution_indicators : ℚ))

/-- Indicator list of `_evaluate_guidance_clarity`. -/
def clarity_indicators : List String :=
  ["here's how", "follow these steps", "you need to",
   "make sure", "ensure that", "double-check"]

/-- `TechnicalAccuracyJudge._evaluate_guidance_clarity`
(custom_judges.py 317-329): base 6.0, +0.4 per indicator, capped at 10.0. -/
def evaluate_guidance_clarity (conv : String) : ℚ :=
  min 10.0 (6.0 + 0.4 * (countFound conv clarity_indicators : ℚ))

example : splitOnList "manager".data "a manager here".data = ["a ".data, " here".data] := by decide
example : countOcc "AGENT:".data "AGENT: x AGENT: y".data = 2 := by decide

/-- `pat` occurs in `s` starting at index `i`. -/
def prefixAt (pat s : List Char) (i : Nat) : Bool := pat.isPrefixOf (s.drop i)

/-- Python `re` end-anchor `$` (no MULTILINE): position `j` is the end of the
string or just before a final newline. -/
def dollarAt (s : List Char) (j : Nat) : Bool :=
  j == s.length || (j + 1 == s.length && s.drop j == ['\n'])

/-- The lookahead `(?=CUSTOMER:|$)` of the communication regex holds at `j`. -/
def lookaheadOk (s : List Char) (j : Nat) : Bool :=
  prefixAt "CUSTOMER:".data s j || dollarAt s j

/-- Smallest span length `k` (starting the search at the given `k`, with
fuel): the non-greedy `(.+?)` of the communication regex stops at the first
`k ≥ 1` with the lookahead satisfied at `b + k`. -/
def findSpanLen (s : List Char) (b : Nat) : Nat → Nat → Option Nat
  | _, 0 => none
  | k, fuel + 1 =>
    if s.length < b + k then none
    else if lookaheadOk s (b + k) then some k
    else findSpanLen s b (k + 1) fuel

/-- Scanner for `re.findall(r'AGENT: (.+?)(?=CUSTOMER:|$)', conv, re.DOTALL)`
(custom_judges.py line 156): at each position try to match `AGENT: ` followed
by a shortest non-empty DOTALL span ending at `CUSTOMER:` or at `$`;
matches are non-overlapping and the scan resumes at the match end. -/
def agentSpansAux (s : List Char) : Nat → Nat → List (List Char)
  | _, 0 => []
  | pos, fuel + 1 =>
    if s.length ≤ pos then []
    else if prefixAt "AGENT: ".data s pos && decide (pos + 7 < s.length) then
      match findSpanLen s (pos + 7) 1 (s.length + 1) with
      | some k => ((s.drop (pos + 7)).take k) :: agentSpansAux s (pos + 7 + k) fuel
      | none => agentSpansAux s (pos + 1) fuel
    else agentSpansAux s (pos + 1) fuel

/-- The assistant-authored spans of a transcript, as extracted by the
communication-clarity regex. -/
def agentSpans (conv : String) : List (List Char) :=
  agentSpansAux conv.data 0 (conv.data.length + 1)

example : agentSpans "CUSTOMER: hi\n\nAGENT: all good now\n\nCUSTOMER: thanks\n\nAGENT: bye" =
    ["all good now\n\n".data, "bye".data] := by decide
example : agentSpans "no marker here" = [] := by decide

/-- Word count of one span: Python `len(response.split())`. -/
def wordCount (l : List Char) : Nat := (pyWords l).length

/-- `CustomerServiceQualityJudge._evaluate_communication`
(custom_judges.py 153-169): neutral 5.0 with no assistant spans, otherwise
bucket the mean span word count: 8.0 for [10, 50], 6.0 for [5, 10) and
(50, 100], else 4.0. -/
def evaluate_communication (conv : String) : ℚ :=
  let agent_responses := agentSpans conv
  if agent_responses.isEmpty then 5.0
  else
    let avg : ℚ := ((agent_responses.map wordCount).sum : ℚ) / (agent_responses.length : ℚ)
    if 10 ≤ avg ∧ avg ≤ 50 then 8.0
    else if (5 ≤ avg ∧ avg < 10) ∨ (50 < avg ∧ avg ≤ 100) then 6.0
    else 4.0

/-- Trigger list of `EscalationAppropriatenessJudge._assess_escalation_need`. -/
def escalation_triggers : List String :=
  ["manager", "supervisor", "escalate", "higher level",
   "weeks", "months", "frustrated", "angry", "unacceptable"]

/-- The triggers found in the conversation (custom_judges.py line 399). -/
def triggers_found (conv : String) : List String :=
  escalation_triggers.filter fun t => containsList (lowerChars conv.data) t.data

/-- The `escalation_warranted` flag of `_assess_escalation_need`
(custom_judges.py line 402): at least two triggers present. -/
def escalation_warranted (conv : String) : Bool :=
  2 ≤ (triggers_found conv).length

/-- `EscalationAppropriatenessJudge._evaluate_escalation_timing`
(custom_judges.py 407-423): split the conversation on the literal
`"manager"` and bucket the number of `"AGENT:"` markers before it. -/
def evaluate_escalation_timing (conv : String) : String :=
  if containsList (lowerChars conv.data) "manager".data then
    let parts := splitOnList "manager".data conv.data
    if 1 < parts.length then
      let pre := parts.headD []
      let interaction_count := countOcc "AGENT:".data pre
      if interaction_count ≤ 2 then "Too early - should attempt resolution first"
      else if interaction_count ≤ 5 then "Appropriate timing"
      else "Too late - should have escalated sooner"
    else "No escalation occurred"
  else "No escalation occurred"

/-- The four boolean process checks of `_evaluate_escalation_process`
(custom_judges.py 425-434), in source order: explanation provided,
expectations set, information gathered, professional handoff. -/
def evaluate_escalation_process (conv : String) : List Bool :=
  let low := lowerChars conv.data
  [containsList low "escalate".data || containsList low "manager".data,
   containsList low "will contact".data || containsList low "within".data,
   containsList low "account".data || containsList low "details".data,
   containsList low "transfer".data || containsList low "connect".data]

/-- `EscalationAppropriatenessJudge._calculate_escalation_score`
(custom_judges.py 448-472): base 5.0, +2.0 / +1.0 for escalation-need
agreement, ±1.0 for timing, +0.5 per satisfied process check, clamped to
[1.0, 10.0]. -/
def calculate_escalation_score (conv : String) : ℚ :=
  let warranted := escalation_warranted conv
  let timing := evaluate_escalation_timing conv
  let process := evaluate_escalation_process conv
  let hasManager := containsList (lowerChars conv.data) "manager".data
  let s1 : ℚ := if warranted && hasManager then 5.0 + 2.0
    else if !warranted && !hasManager then 5.0 + 1.0 else 5.0
  let s2 : ℚ := if timing = "Appropriate timing" then s1 + 1.0
    else if "Too".data.isPrefixOf timing.data then s1 - 1.0 else s1
  let s3 : ℚ := s2 + (process.countP id : ℚ) * 0.5
  max 1.0 (min 10.0 s3)

/-- Python `sep.join(pieces)`. -/
def joinSep (sep : List Char) : List (List Char) → List Char
  | [] => []
  | [l] => l
  | l :: ls => l ++ sep ++ joinSep sep ls

/-- `CustomerServiceQualityJudge._extract_conversation`
(custom_judges.py 78-90): `CUSTOMER:` / `AGENT:` labelled lines joined by
blank lines; other roles are dropped. -/
def quality_extract_conversation (msgs : List Message) : String :=
  ⟨joinSep "\n\n".data (msgs.filterMap fun m =>
    if m.role == "user" then some ("CUSTOMER: ".data ++ m.content.data)
    else if m.role == "assistant" then some ("AGENT: ".data ++ m.content.data)
    else none)⟩

/-- `EscalationAppropriatenessJudge._extract_conversation`
(custom_judges.py 388-390, same shape in `TechnicalAccuracyJudge`): raw
`role: content` lines joined by newlines. -/
def esc_extract_conversation (msgs : List Message) : String :=
  ⟨joinLines (msgs.map fun m => m.role.data ++ ": ".data ++ m.content.data)⟩

example : esc_extract_conversation [⟨"user", "hi"⟩, ⟨"assistant", "hello"⟩] =
    "user: hi\nassistant: hello" := by decide
example : quality_extract_conversation [⟨"user", "hi"⟩, ⟨"assistant", "hello"⟩] =
    "CUSTOMER: hi\n\nAGENT: hello" := by decide

/-- `CrewAIAdapter._format_conversation_context` (crew_adapter.py 64-79):
`Customer:` / `Agent:` / `System:` labelled lines joined by newlines; other
roles are dropped. -/
def format_conversation_context (msgs : List Message) : String :=
  ⟨joinLines (msgs.filterMap fun m =>
    if m.role == "user" then some ("Customer: ".data ++ m.content.data)
    else if m.role == "assistant" then some ("Agent: ".data ++ m.content.data)
    else if m.role == "system" then some ("System: ".data ++ m.content.data)
    else none)⟩

/-- The agent roster entries of `CustomerServiceCrew.get_crew_info`. -/
structure AgentInfo where
  role : String
  goal : String
deriving DecidableEq

/-- The value of `CustomerServiceCrew.get_crew_info`
(customer_service_crew.py 235-244); its content comes from the external
crew framework, so the adapter model is parameterised by it. -/
structure CrewInfo where
  agents : List AgentInfo
  process : String
  tools : List String
deriving DecidableEq

/-- The per-thread entry of `CrewAIAdapter.conversation_history`
(crew_adapter.py 40-45): accumulated messages plus the `context` dict,
whose only keys are `customer_id` and `last_response`. -/
structure ThreadContext where
  messages : List Message
  customer_id : Option String
  last_response : Option String
deriving DecidableEq

/-- The fields of `scenario.AgentInput` read by the adapter. -/
structure AgentInput where
  thread_id : String
  messages : List Message
  new_messages : List Message
  judgment_request : Bool
deriving DecidableEq

/-- The judgment summary object built by
`CrewAIAdapter._handle_judgment_request` (crew_adapter.py 156-168); the
Python code returns it JSON-encoded. -/
structure JudgmentSummary where
  conversation_summary : String
  total_messages : Nat
  customer_id : String
  last_response : String
  crew_info : CrewInfo
deriving DecidableEq

/-- The three observable return shapes of `CrewAIAdapter.call`: a cleaned
conversational reply, a JSON judgment summary, or the caught-exception
apology string. -/
inductive CallResult where
  | response (text : String)
  | judgment (summary : JudgmentSummary)
  | apology (text : String)
deriving DecidableEq

/-- `CrewAIAdapter.conversation_history`: a string-keyed mapping modelled as
an association list with Python-dict update semantics. -/
abbrev AdapterState : Type := List (String × ThreadContext)

/-- Dictionary read: the context stored for a thread id, if any. -/
def lookupThread (st : AdapterState) (tid : String) : Option ThreadContext :=
  (st.find? fun p => p.1 == tid).map (·.2)

/-- Dictionary write: replace the entry for `tid` in place, or append it. -/
def setThread : AdapterState → String → ThreadContext → AdapterState
  | [], tid, ctx => [(tid, ctx)]
  | p :: rest, tid, ctx =>
    if p.1 == tid then (tid, ctx) :: rest else p :: setThread rest tid ctx

/-- `input.last_new_user_message_str()`: the most recent `user` message
content, defaulting to the empty string (modelled after the mock of the
scenario library in crew_adapter.py 286-290). -/
def last_new_user_message_str (input : AgentInput) : String :=
  match input.messages.reverse.find? (fun m => m.role == "user") with
  | some m => m.content
  | none => ""

/-- The synchronous external responder `crew.handle_inquiry`: it returns a
reply or raises an exception carrying an error text. -/
def Responder : Type := String → String → Except String String

/-- Everything observable about one `CrewAIAdapter.call`: the state after
the call, the returned value, and how often the responder was invoked. -/
structure CallOutcome where
  state : AdapterState
  result : CallResult
  responder_calls : Nat
deriving DecidableEq

/-- `CrewAIAdapter.call` (crew_adapter.py 81-131), parameterised by the
external crew (`handle_inquiry` plus its `get_crew_info` value):
create the thread entry if absent, extend the stored messages with the new
messages, then either answer a judgment request from the stored context, or
invoke the responder once, clean its reply and record it in the context —
converting a responder exception into the apology string. -/
def adapter_call (handle_inquiry : Responder) (crew_info : CrewInfo)
    (st : AdapterState) (input : AgentInput) : CallOutcome :=
  let st1 := if (lookupThread st input.thread_id).isNone then
      setThread st input.thread_id ⟨[], none, none⟩ else st
  let user_message := last_new_user_message_str input
  let customer_id := extract_customer_id input.messages
  let ctx := (lookupThread st1 input.thread_id).getD ⟨[], none, none⟩
  let ctx2 := { ctx with messages := ctx.messages ++ input.new_messages }
  let st2 := setThread st1 input.thread_id ctx2
  if input.judgment_request then
    { state := st2,
      result := .judgment
        { conversation_summary := format_conversation_context input.messages,
          total_messages := input.messages.length,
          customer_id := ctx2.customer_id.getD "unknown",
          last_response := ctx2.last_response.getD "",
          crew_info := crew_info },
      responder_calls := 0 }
  else
    match handle_inquiry user_message customer_id with
    | .ok raw =>
      let formatted := format_crew_response raw
      let ctx3 := { ctx2 with last_response := some formatted,
                              customer_id := some customer_id }
      { state := setThread st2 input.thread_id ctx3,
        result := .response formatted,
        responder_calls := 1 }
    | .error e =>
      let error_msg := "Error in CrewAI adapter: " ++ e
      { state := st2,
        result := .apology ("I apologize, but I encountered an error while processing your request. Please try again or contact support if the issue persists. Error: " ++ error_msg),
        responder_calls := 1 }

/-- The amended customer-id contract of C3, written from the corrected
claim's words: lowercase each message content, split it into whitespace
tokens, scan messages in order and adjacent token pairs in order, and
return the second token of the first pair whose first token contains
`"cust"`. -/
def custFollowerSpec (msgs : List Message) : Option (List Char) :=
  ((msgs.flatMap fun m =>
      let ws := pyWords (lowerChars m.content.data)
      ws.zip ws.tail).find? fun p => containsList p.1 "cust".data).map (·.2)

/-- The amended customer-id extraction: the first-pair scan with the
`CUST001` default. -/
def extract_customer_id_spec (msgs : List Message) : String :=
  match custFollowerSpec msgs with
  | some w => ⟨w⟩
  | none => "CUST001"

theorem containsList_iff {hay needle : List Char} :
    containsList hay needle = true ↔ needle <:+: hay := by
  simp [containsList]

theorem splitLines_ne_nil (l : List Char) : splitLines l ≠ [] := by
  induction l with
  | nil => simp [splitLines]
  | cons c cs ih =>
    simp only [splitLines]
    split
    · simp
    · cases hs : splitLines cs <;> simp

theorem joinLines_splitLines (l : List Char) : joinLines (splitLines l) = l := by
  induction l with
  | nil => rfl
  | cons c cs ih =>
    by_cases hc : c = '\n'
    · subst hc
      simp only [splitLines, if_pos rfl]
      cases hs : splitLines cs with
      | nil => exact absurd hs (splitLines_ne_nil cs)
      | cons m ms =>
        rw [hs] at ih
        simp only [joinLines, List.nil_append]
        rw [ih]
    · simp only [splitLines, if_neg hc]
      cases hs : splitLines cs with
      | nil => exact absurd hs (splitLines_ne_nil cs)
      | cons m ms =>
        rw [hs] at ih
        cases ms with
        | nil =>
          simp only [joinLines] at ih ⊢
          rw [ih]
        | cons m2 ms2 =>
          simp only [joinLines] at ih ⊢
          rw [List.cons_append, ih]

/-- C5: if the response cleaner's filtering discards every line, the cleaner
returns the original uncleaned string unchanged; consequently its output is
never empty when its input is non-empty. -/
theorem cleaner_full_discard_returns_original (s : String) :
    (cleanedLines s = [] → format_crew_response s = s) ∧
    (s ≠ "" → format_crew_response s ≠ "") := by
  constructor
  · intro h
    simp [format_crew_response, h]
  · intro hs
    by_cases h : cleanedLines s = []
    · simpa [format_crew_response, h] using hs
    · obtain ⟨l, ls, hl⟩ : ∃ l ls, cleanedLines s = l :: ls := by
        cases hcl : cleanedLines s with
        | nil => exact absurd hcl h
        | cons a as => exact ⟨a, as, rfl⟩
      have hlne : l ≠ [] := by
        have hmem : l ∈ cleanedLines s := by
          rw [hl]
          exact List.mem_cons_self _ _
        rw [cleanedLines] at hmem
        obtain ⟨l', hl'mem, hmap⟩ := List.mem_map.mp hmem
        have hk : keepLine l' = true := List.of_mem_filter hl'mem
        simp only [keepLine, Bool.and_eq_true, Bool.not_eq_true'] at hk
        have : (stripChars l').isEmpty = false := hk.1.1.2
        rw [← hmap]
        exact List.isEmpty_eq_false.mp this
      have hfmt : format_crew_response s = ⟨joinLines (l :: ls)⟩ := by
        simp [format_crew_response, hl]
      rw [hfmt]
      intro hcontra
      rw [String.ext_iff] at hcontra
      cases ls with
      | nil =>
        simp only [joinLines] at hcontra
        exact hlne hcontra
      | cons m ms => simp [joinLines] at hcontra

/-- Witness for C5 at a response all of whose lines are discarded. -/
theorem cleaner_full_discard_returns_original_witness :
    cleanedLines "Agent: working\n[log]\n## hdr\n   " = [] ∧
    format_crew_response "Agent: working\n[log]\n## hdr\n   " =
      "Agent: working\n[log]\n## hdr\n   " ∧
    format_crew_response "Agent: working\n[log]\n## hdr\n   " ≠ "" :=
  ⟨by decide,
   (cleaner_full_discard_returns_original _).1 (by decide),
   (cleaner_full_discard_returns_original _).2 (by decide)⟩

/-- C6 (corrected): the cleaner is **not** idempotent in general — a line
whose leading whitespace hides a `[` survives the first pass but is stripped
by it, so the second pass discards it.  Concretely, cleaning
`"  [a]\nb"` yields `"[a]\nb"`, and cleaning that yields `"b"`; the middle
string also shows that a string with no execution-log-marker line need not
be a fixed point. -/
theorem cleaner_not_idempotent :
    format_crew_response (format_crew_response "  [a]\nb") ≠
      format_crew_response "  [a]\nb" ∧
    (∀ l ∈ splitLines ("[a]\nb" : String).data,
      (skip_phrases.any fun p => containsList (lowerChars l) p) = false) ∧
    format_crew_response "[a]\nb" ≠ "[a]\nb" := by decide

/-- C6 (amended): cleaning is the identity on every string all of whose
lines are kept verbatim by the filter — non-blank, marker-free, not starting
with `[` or `##`, and equal to their own strip; on such strings the cleaner
is in particular idempotent. -/
theorem cleaner_fixed_on_fully_kept_lines (s : String)
    (h : ∀ l ∈ splitLines s.data, keepLine l = true ∧ stripChars l = l) :
    format_crew_response s = s := by
  have h1 : (splitLines s.data).filter keepLine = splitLines s.data :=
    List.filter_eq_self.mpr fun l hl => (h l hl).1
  have h2 : (splitLines s.data).map stripChars = splitLines s.data := by
    have hmc := List.map_congr_left (l := splitLines s.data)
      (f := stripChars) (g := id) fun l hl => (h l hl).2
    rw [hmc, List.map_id]
  have h3 : (splitLines s.data).isEmpty = false :=
    List.isEmpty_eq_false.mpr (splitLines_ne_nil _)
  simp only [format_crew_response, cleanedLines, h1, h2, h3, Bool.false_eq_true,
    if_false]
  rw [joinLines_splitLines]

/-- Witness for C6's amended statement on an already-clean string. -/
theorem cleaner_fixed_on_fully_kept_lines_witness :
    format_crew_response "hello\nworld" = "hello\nworld" :=
  cleaner_fixed_on_fully_kept_lines _ (by decide)

theorem cap_bounds (x : ℚ) (hx : (1.0:ℚ) ≤ x) :
    (1.0:ℚ) ≤ min 10.0 x ∧ min 10.0 x ≤ 10.0 :=
  ⟨le_min (by norm_num) hx, min_le_left _ _⟩

theorem clamp_bounds (x : ℚ) :
    (1.0:ℚ) ≤ max 1.0 (min 10.0 x) ∧ max 1.0 (min 10.0 x) ≤ 10.0 :=
  ⟨le_max_left _ _, max_le (by norm_num) (min_le_left _ _)⟩

theorem base_plus_nonneg (b r : ℚ) (n : ℕ) (hb : (1.0:ℚ) ≤ b) (hr : 0 ≤ r) :
    (1.0:ℚ) ≤ b + r * (n : ℚ) := by
  have h := mul_nonneg hr (Nat.cast_nonneg (α := ℚ) n)
  linarith

/-- C2: for every transcript, each of the ten heuristic sub-scores —
empathy, professionalism, listening, communication, problem-solving,
customer-focus, technical accuracy, solution quality, guidance clarity and
the escalation score — lies in the closed interval [1.0, 10.0]. -/
theorem sub_scores_in_unit_band (conv : String) :
    ((1.0:ℚ) ≤ evaluate_empathy conv ∧ evaluate_empathy conv ≤ 10.0) ∧
    ((1.0:ℚ) ≤ evaluate_professionalism conv ∧ evaluate_professionalism conv ≤ 10.0) ∧
    ((1.0:ℚ) ≤ evaluate_listening conv ∧ evaluate_listening conv ≤ 10.0) ∧
    ((1.0:ℚ) ≤ evaluate_communication conv ∧ evaluate_communication conv ≤ 10.0) ∧
    ((1.0:ℚ) ≤ evaluate_problem_solving conv ∧ evaluate_problem_solving conv ≤ 10.0) ∧
    ((1.0:ℚ) ≤ evaluate_customer_focus conv ∧ evaluate_customer_focus conv ≤ 10.0) ∧
    ((1.0:ℚ) ≤ evaluate_technical_accuracy conv ∧ evaluate_technical_accuracy conv ≤ 10.0) ∧
    ((1.0:ℚ) ≤ evaluate_solution_quality conv ∧ evaluate_solution_quality conv ≤ 10.0) ∧
    ((1.0:ℚ) ≤ evaluate_guidance_clarity conv ∧ evaluate_guidance_clarity conv ≤ 10.0) ∧
    ((1.0:ℚ) ≤ calculate_escalation_score conv ∧ calculate_escalation_score conv ≤ 10.0) := by
  refine ⟨?_, ?_, ?_, ?_, ?_, ?_, ?_, ?_, ?_, ?_⟩
  · unfold evaluate_empathy
    exact cap_bounds _ (base_plus_nonneg _ _ _ (by norm_num) (by norm_num))
  · unfold evaluate_professionalism
    exact clamp_bounds _
  · unfold evaluate_listening
    exact cap_bounds _ (base_plus_nonneg _ _ _ (by norm_num) (by norm_num))
  · unfold evaluate_communication
    dsimp only
    split_ifs <;> norm_num
  · unfold evaluate_problem_solving
    exact cap_bounds _ (base_plus_nonneg _ _ _ (by norm_num) (by norm_num))
  · unfold evaluate_customer_focus
    exact cap_bounds _ (base_plus_nonneg _ _ _ (by norm_num) (by norm_num))
  · unfold evaluate_technical_accuracy
    exact clamp_bounds _
  · unfold evaluate_solution_quality
    exact cap_bounds _ (base_plus_nonneg _ _ _ (by norm_num) (by norm_num))
  · unfold evaluate_guidance_clarity
    exact cap_bounds _ (base_plus_nonneg _ _ _ (by norm_num) (by norm_num))
  · unfold calculate_escalation_score
    exact clamp_bounds _

/-- C8: for every transcript whose assistant-authored spans have mean word
count 30 the communication score is the medium-length value 8.0, mean word
count 3 gives the very-short value 4.0, and a transcript with no assistant
spans gets the fixed neutral score 5.0. -/
theorem communication_bucket_values (conv : String) :
    (agentSpans conv ≠ [] →
      (((agentSpans conv).map wordCount).sum : ℚ) / ((agentSpans conv).length : ℚ) = 30 →
      evaluate_communication conv = 8.0) ∧
    (agentSpans conv ≠ [] →
      (((agentSpans conv).map wordCount).sum : ℚ) / ((agentSpans conv).length : ℚ) = 3 →
      evaluate_communication conv = 4.0) ∧
    (agentSpans conv = [] → evaluate_communication conv = 5.0) := by
  refine ⟨?_, ?_, ?_⟩
  · intro hne havg
    have hie : (agentSpans conv).isEmpty = false := List.isEmpty_eq_false.mpr hne
    unfold evaluate_communication
    dsimp only
    rw [havg]
    simp only [hie, Bool.false_eq_true, if_false]
    rw [if_pos (by norm_num)]
  · intro hne havg
    have hie : (agentSpans conv).isEmpty = false := List.isEmpty_eq_false.mpr hne
    unfold evaluate_communication
    dsimp only
    rw [havg]
    simp only [hie, Bool.false_eq_true, if_false]
    rw [if_neg (by norm_num), if_neg (by norm_num)]
  · intro he
    unfold evaluate_communication
    dsimp only
    simp [he]

/-- Witness for C8: one 30-word assistant turn hits the 8.0 bucket, one
3-word assistant turn hits the 4.0 bucket, and a customer-only transcript
gets 5.0. -/
theorem communication_bucket_values_witness :
    evaluate_communication (quality_extract_conversation [⟨"user", "hi"⟩,
      ⟨"assistant", "w w w w w w w w w w w w w w w w w w w w w w w w w w w w w w"⟩]) = 8.0 ∧
    evaluate_communication (quality_extract_conversation [⟨"user", "hi"⟩,
      ⟨"assistant", "x y z"⟩]) = 4.0 ∧
    evaluate_communication (quality_extract_conversation [⟨"user", "hi"⟩]) = 5.0 := by
  have h1 : agentSpans (quality_extract_conversation [⟨"user", "hi"⟩,
      ⟨"assistant", "w w w w w w w w w w w w w w w w w w w w w w w w w w w w w w"⟩]) =
      ["w w w w w w w w w w w w w w w w w w w w w w w w w w w w w w".data] := by decide
  have h1w : wordCount "w w w w w w w w w w w w w w w w w w w w w w w w w w w w w w".data = 30 := by
    decide
  have h2 : agentSpans (quality_extract_conversation [⟨"user", "hi"⟩,
      ⟨"assistant", "x y z"⟩]) = ["x y z".data] := by decide
  have h2w : wordCount "x y z".data = 3 := by decide
  refine ⟨(communication_bucket_values _).1 (by rw [h1]; simp) ?_,
          (communication_bucket_values _).2.1 (by rw [h2]; simp) ?_,
          (communication_bucket_values _).2.2 (by decide)⟩
  · rw [h1]
    simp [h1w]
  · rw [h2]
    simp [h2w]

set_option maxRecDepth 40000 in
/-- C4 is a code bug: `_evaluate_escalation_timing` counts literal `AGENT:`
markers, but the escalation judge's own `_extract_conversation` emits
`assistant:` lines, so on its own transcripts the pre-escalation count is
always 0 and the verdict is `Too early` regardless of how many assistant
turns precede the first `manager` mention.  On the transcript below, with
exactly three assistant turns before the mention, the claim (and the
counting logic's evident intent, recovered with `AGENT:`-marked input)
expects `Appropriate timing`, while the code produces `Too early`. -/
theorem escalation_timing_counts_wrong_marker :
    ([(⟨"user", "My bill is wrong"⟩ : Message), ⟨"assistant", "Let me look"⟩,
       ⟨"user", "Still wrong"⟩, ⟨"assistant", "Checking again"⟩,
       ⟨"user", "Not fixed"⟩, ⟨"assistant", "One more idea"⟩].filter
        (fun m => m.role == "assistant")).length = 3 ∧
    evaluate_escalation_timing (esc_extract_conversation
      [⟨"user", "My bill is wrong"⟩, ⟨"assistant", "Let me look"⟩,
       ⟨"user", "Still wrong"⟩, ⟨"assistant", "Checking again"⟩,
       ⟨"user", "Not fixed"⟩, ⟨"assistant", "One more idea"⟩,
       ⟨"user", "I want to speak to a manager"⟩]) =
      "Too early - should attempt resolution first" ∧
    evaluate_escalation_timing (quality_extract_conversation
      [⟨"user", "My bill is wrong"⟩, ⟨"assistant", "Let me look"⟩,
       ⟨"user", "Still wrong"⟩, ⟨"assistant", "Checking again"⟩,
       ⟨"user", "Not fixed"⟩, ⟨"assistant", "One more idea"⟩,
       ⟨"user", "I want to speak to a manager"⟩]) = "Appropriate timing" := by
  decide

/-- Every token produced by `splitWsAux` is a contiguous substring of the
accumulator (reversed) followed by the remaining input. -/
theorem mem_splitWsAux_infix (l : List Char) :
    ∀ acc w, w ∈ splitWsAux l acc → w <:+: (acc.reverse ++ l) := by
  induction l with
  | nil =>
    intro acc w hw
    simp only [splitWsAux] at hw
    split at hw
    · simp at hw
    · simp only [List.mem_singleton] at hw
      subst hw
      simp
  | cons c cs ih =>
    intro acc w hw
    simp only [splitWsAux] at hw
    by_cases hc : c.isWhitespace
    · rw [if_pos hc] at hw
      by_cases ha : acc.isEmpty
      · rw [if_pos ha] at hw
        have h1 := ih [] w hw
        simp only [List.reverse_nil, List.nil_append] at h1
        exact h1.trans ⟨acc.reverse ++ [c], [], by simp⟩
      · rw [if_neg ha] at hw
        rcases List.mem_cons.mp hw with rfl | hw'
        · exact ⟨[], c :: cs, by simp⟩
        · have h1 := ih [] w hw'
          simp only [List.reverse_nil, List.nil_append] at h1
          exact h1.trans ⟨acc.reverse ++ [c], [], by simp⟩
    · rw [if_neg hc] at hw
      have h1 := ih (c :: acc) w hw
      simpa [List.append_assoc] using h1

/-- Every whitespace token of `l` is an infix of `l`. -/
theorem mem_pyWords_infix {l w : List Char} (hw : w ∈ pyWords l) : w <:+: l := by
  simpa using mem_splitWsAux_infix l [] w hw

/-- The word loop of `_extract_customer_id` is the first-match scan over
adjacent token pairs. -/
theorem findCustFollower_eq_find? (ws : List (List Char)) :
    findCustFollower ws =
      ((ws.zip ws.tail).find? fun p => containsList p.1 "cust".data).map (·.2) := by
  match ws with
  | [] => rfl
  | [w] => rfl
  | w :: next :: rest =>
    simp only [findCustFollower, List.tail_cons, List.zip_cons_cons, List.find?_cons]
    cases h : containsList w "cust".data with
    | true => simp [h]
    | false =>
      simp only [h]
      exact findCustFollower_eq_find? (next :: rest)

theorem custFollowerSpec_cons (m : Message) (rest : List Message) :
    custFollowerSpec (m :: rest) =
      (((((pyWords (lowerChars m.content.data)).zip
          (pyWords (lowerChars m.content.data)).tail).find?
        (fun p => containsList p.1 "cust".data)).map (·.2)).or
        (custFollowerSpec rest)) := by
  simp only [custFollowerSpec, List.flatMap_cons, List.find?_append]
  cases h : ((pyWords (lowerChars m.content.data)).zip
      (pyWords (lowerChars m.content.data)).tail).find?
      (fun p => containsList p.1 "cust".data) with
  | none => simp [Option.or]
  | some p => simp [Option.or]

/-- C3 (amended): customer-id extraction returns the token immediately
following the first `"cust"`-containing token **that has a following token
in its own message** (messages scanned in order, contents lowercased and
whitespace-tokenised), and `CUST001` when no such pair exists; in
particular for the single input message `"my cust id is 4477"` the
extracted id is `"id"` (the token right after `"cust"`), not `"4477"`. -/
theorem extract_customer_id_pair_scan :
    (∀ msgs, extract_customer_id msgs = extract_customer_id_spec msgs) ∧
    extract_customer_id [⟨"user", "my cust id is 4477"⟩] = "id" := by
  constructor
  · intro msgs
    induction msgs with
    | nil => rfl
    | cons m rest ih =>
      simp only [extract_customer_id]
      by_cases hgate : (containsList (lowerChars m.content.data) "customer id".data ||
          containsList (lowerChars m.content.data) "cust".data) = true
      · rw [if_pos hgate]
        cases hf : findCustFollower (pyWords (lowerChars m.content.data)) with
        | some w =>
          rw [findCustFollower_eq_find?] at hf
          unfold extract_customer_id_spec
          rw [custFollowerSpec_cons, hf]
          rfl
        | none =>
          rw [findCustFollower_eq_find?] at hf
          unfold extract_customer_id_spec
          rw [custFollowerSpec_cons, hf, Option.none_or]
          exact ih
      · rw [if_neg hgate]
        have hcust : containsList (lowerChars m.content.data) "cust".data = false := by
          simp only [Bool.or_eq_true, not_or, Bool.not_eq_true] at hgate
          exact hgate.2
        have hnone : (((pyWords (lowerChars m.content.data)).zip
            (pyWords (lowerChars m.content.data)).tail).find?
            (fun p => containsList p.1 "cust".data)) = none := by
          rw [List.find?_eq_none]
          intro p hp
          cases p with
          | mk a b =>
            intro hcontra
            have h1 : "cust".data <:+: a := containsList_iff.mp hcontra
            have h2 : a <:+: lowerChars m.content.data :=
              mem_pyWords_infix (List.of_mem_zip hp).1
            have h3 := containsList_iff.mpr (h1.trans h2)
            rw [hcust] at h3
            exact Bool.false_ne_true h3
        unfold extract_customer_id_spec
        rw [custFollowerSpec_cons, hnone, Option.map_none', Option.none_or]
        exact ih
  · decide

/-- Counterexample for C3 as stated: the example input `"my cust id is
4477"` yields `"id"`, not `"4477"`; and the input `"this is cust"` contains
a `"cust"` token yet falls back to the default `CUST001`, because the
`"cust"` token has no following token. -/
theorem extract_customer_id_claim_counterexample :
    extract_customer_id [⟨"user", "my cust id is 4477"⟩] = "id" ∧
    "id" ≠ "4477" ∧
    extract_customer_id [⟨"user", "this is cust"⟩] = "CUST001" ∧
    ((pyWords (lowerChars "this is cust".data)).any
      fun w => containsList w "cust".data) = true := by
  decide

theorem lookupThread_setThread_self (st : AdapterState) (tid : String)
    (ctx : ThreadContext) :
    lookupThread (setThread st tid ctx) tid = some ctx := by
  induction st with
  | nil => simp [setThread, lookupThread]
  | cons p rest ih =>
    simp only [setThread]
    cases hb : (p.1 == tid) with
    | true => simp [lookupThread, List.find?_cons]
    | false =>
      simp only [Bool.false_eq_true, if_false]
      simp only [lookupThread, List.find?_cons, hb]
      exact ih

theorem lookupThread_setThread_ne (st : AdapterState) {t tid : String}
    (ctx : ThreadContext) (h : t ≠ tid) :
    lookupThread (setThread st tid ctx) t = lookupThread st t := by
  induction st with
  | nil => simp [setThread, lookupThread, List.find?_cons, Ne.symm h]
  | cons p rest ih =>
    simp only [setThread]
    cases hb : (p.1 == tid) with
    | true =>
      have hp : p.1 = tid := by simpa using hb
      simp [lookupThread, List.find?_cons, hp, Ne.symm h]
    | false =>
      simp only [Bool.false_eq_true, if_false]
      cases hpt : (p.1 == t) with
      | true => simp [lookupThread, List.find?_cons, hpt]
      | false =>
        simp only [lookupThread, List.find?_cons, hpt]
        exact ih

/-- A call never touches the entry of any other thread id. -/
theorem adapter_call_frame (h : Responder) (ci : CrewInfo) (st : AdapterState)
    (input : AgentInput) {t : String} (hne : t ≠ input.thread_id) :
    lookupThread (adapter_call h ci st input).state t = lookupThread st t := by
  have hset : ∀ (st' : AdapterState) (ctx : ThreadContext),
      lookupThread (setThread st' input.thread_id ctx) t = lookupThread st' t :=
    fun st' ctx => lookupThread_setThread_ne st' ctx hne
  have hst1 : lookupThread (if (lookupThread st input.thread_id).isNone then
      setThread st input.thread_id ⟨[], none, none⟩ else st) t = lookupThread st t := by
    split
    · exact hset st _
    · rfl
  unfold adapter_call
  dsimp only
  split
  · rw [hset, hst1]
  · split
    · rw [hset, hset, hst1]
    · rw [hset, hst1]

/-- A call appends exactly the new messages to its own thread's stored
message list (creating the entry when absent). -/
theorem adapter_call_messages (h : Responder) (ci : CrewInfo) (st : AdapterState)
    (input : AgentInput) :
    ∃ ctx', lookupThread (adapter_call h ci st input).state input.thread_id = some ctx' ∧
      ctx'.messages = (match lookupThread st input.thread_id with
        | some c => c.messages
        | none => []) ++ input.new_messages := by
  cases hl : lookupThread st input.thread_id with
  | none =>
    have hself := lookupThread_setThread_self st input.thread_id
      (⟨[], none, none⟩ : ThreadContext)
    unfold adapter_call
    dsimp only
    simp only [hl, Option.isNone_none, if_true, hself, Option.getD_some]
    split
    · exact ⟨_, lookupThread_setThread_self _ _ _, rfl⟩
    · split
      · exact ⟨_, lookupThread_setThread_self _ _ _, rfl⟩
      · exact ⟨_, lookupThread_setThread_self _ _ _, rfl⟩
  | some c =>
    unfold adapter_call
    dsimp only
    simp only [hl, Option.isNone_some, Bool.false_eq_true, if_false, Option.getD_some]
    split
    · exact ⟨_, lookupThread_setThread_self _ _ _, rfl⟩
    · split
      · exact ⟨_, lookupThread_setThread_self _ _ _, rfl⟩
      · exact ⟨_, lookupThread_setThread_self _ _ _, rfl⟩

/-- C1: a judgment-flagged input never invokes the responder and the call
returns the judgment summary, while a non-judgment input (on which nothing
fails before dispatch — dispatch in this model is total) invokes the
responder exactly once, whether it returns or raises. -/
theorem judgment_flag_gates_responder (h : Responder) (ci : CrewInfo)
    (st : AdapterState) (input : AgentInput) :
    (input.judgment_request = true →
      (adapter_call h ci st input).responder_calls = 0 ∧
      ∃ s, (adapter_call h ci st input).result = CallResult.judgment s) ∧
    (input.judgment_request = false →
      (adapter_call h ci st input).responder_calls = 1) := by
  constructor
  · intro hj
    unfold adapter_call
    dsimp only
    simp [hj]
  · intro hj
    unfold adapter_call
    dsimp only
    simp only [hj, Bool.false_eq_true, if_false]
    cases h (last_new_user_message_str input) (extract_customer_id input.messages) <;> rfl

/-- Witness for C1: a concrete judgment call makes zero responder calls and
returns a summary; the same input with the flag cleared makes exactly one. -/
theorem judgment_flag_gates_responder_witness :
    ((adapter_call (fun _ _ => Except.ok "fine") ⟨[], "sequential", []⟩ []
        ⟨"t1", [⟨"user", "hi"⟩], [⟨"user", "hi"⟩], true⟩).responder_calls = 0 ∧
      ∃ s, (adapter_call (fun _ _ => Except.ok "fine") ⟨[], "sequential", []⟩ []
        ⟨"t1", [⟨"user", "hi"⟩], [⟨"user", "hi"⟩], true⟩).result = CallResult.judgment s) ∧
    (adapter_call (fun _ _ => Except.ok "fine") ⟨[], "sequential", []⟩ []
        ⟨"t1", [⟨"user", "hi"⟩], [⟨"user", "hi"⟩], false⟩).responder_calls = 1 :=
  ⟨(judgment_flag_gates_responder _ _ _ _).1 rfl,
   (judgment_flag_gates_responder _ _ _ _).2 rfl⟩

/-- C7: when the responder raises, the call returns the fixed apology string
with the error text embedded — the error text is a substring of the reply —
and, the model being total, no exception escapes the adapter. -/
theorem responder_error_becomes_apology (h : Responder) (ci : CrewInfo)
    (st : AdapterState) (input : AgentInput) (e : String)
    (hj : input.judgment_request = false)
    (he : h (last_new_user_message_str input) (extract_customer_id input.messages) =
      Except.error e) :
    (adapter_call h ci st input).result =
      CallResult.apology ("I apologize, but I encountered an error while processing your request. Please try again or contact support if the issue persists. Error: " ++
        ("Error in CrewAI adapter: " ++ e)) ∧
    e.data <:+:
      ("I apologize, but I encountered an error while processing your request. Please try again or contact support if the issue persists. Error: " ++
        ("Error in CrewAI adapter: " ++ e)).data := by
  constructor
  · unfold adapter_call
    dsimp only
    simp only [hj, Bool.false_eq_true, if_false, he]
  · rw [String.data_append, String.data_append]
    exact ⟨"I apologize, but I encountered an error while processing your request. Please try again or contact support if the issue persists. Error: ".data ++
      "Error in CrewAI adapter: ".data, [], by simp⟩

/-- Witness for C7 with a concrete raising responder. -/
theorem responder_error_becomes_apology_witness :
    (adapter_call (fun _ _ => Except.error "boom") ⟨[], "sequential", []⟩ []
        ⟨"t1", [⟨"user", "hi"⟩], [⟨"user", "hi"⟩], false⟩).result =
      CallResult.apology ("I apologize, but I encountered an error while processing your request. Please try again or contact support if the issue persists. Error: " ++
        ("Error in CrewAI adapter: " ++ "boom")) ∧
    "boom".data <:+:
      ("I apologize, but I encountered an error while processing your request. Please try again or contact support if the issue persists. Error: " ++
        ("Error in CrewAI adapter: " ++ "boom")).data :=
  responder_error_becomes_apology (fun _ _ => Except.error "boom") ⟨[], "sequential", []⟩ []
    ⟨"t1", [⟨"user", "hi"⟩], [⟨"user", "hi"⟩], false⟩ "boom" rfl rfl

/-- C10: when the very first call on a thread is a judgment request, the
summary's customer id is the literal `"unknown"` and its last response is
empty, because the context is only populated by earlier conversational
turns — regardless of what the messages would let the extractor recover. -/
theorem first_judgment_summary_unknown (h : Responder) (ci : CrewInfo)
    (st : AdapterState) (input : AgentInput)
    (hl : lookupThread st input.thread_id = none)
    (hj : input.judgment_request = true) :
    ∃ s, (adapter_call h ci st input).result = CallResult.judgment s ∧
      s.customer_id = "unknown" ∧ s.last_response = "" := by
  have hself := lookupThread_setThread_self st input.thread_id
    (⟨[], none, none⟩ : ThreadContext)
  unfold adapter_call
  dsimp only
  simp only [hl, Option.isNone_none, if_true, hj, hself, Option.getD_some]
  exact ⟨_, rfl, rfl, rfl⟩

/-- Witness for C10: first-contact judgment call whose messages do contain
an extractable customer token, yet the summary says `unknown`. -/
theorem first_judgment_summary_unknown_witness :
    extract_customer_id [⟨"user", "cust 4477 here"⟩] = "4477" ∧
    ∃ s, (adapter_call (fun _ _ => Except.ok "fine") ⟨[], "sequential", []⟩ []
        ⟨"t9", [⟨"user", "cust 4477 here"⟩], [⟨"user", "cust 4477 here"⟩], true⟩).result =
      CallResult.judgment s ∧ s.customer_id = "unknown" ∧ s.last_response = "" :=
  ⟨by decide,
   first_judgment_summary_unknown (fun _ _ => Except.ok "fine") ⟨[], "sequential", []⟩ []
     ⟨"t9", [⟨"user", "cust 4477 here"⟩], [⟨"user", "cust 4477 here"⟩], true⟩ rfl rfl⟩

/-- C9: two sequential calls on thread `t`, each supplying exactly one new
message, leave `t`'s stored message list at length 2, and a subsequent call
on a different thread id leaves `t`'s stored entry (messages and context)
unchanged. -/
theorem thread_state_accumulates_and_is_framed
    (h1 h2 h3 : Responder) (ci1 ci2 ci3 : CrewInfo) (st0 : AdapterState)
    (t : String) (i1 i2 i3 : AgentInput)
    (hfresh : lookupThread st0 t = none)
    (ht1 : i1.thread_id = t) (hn1 : i1.new_messages.length = 1)
    (ht2 : i2.thread_id = t) (hn2 : i2.new_messages.length = 1)
    (ht3 : i3.thread_id ≠ t) :
    (∃ ctx, lookupThread
        (adapter_call h2 ci2 (adapter_call h1 ci1 st0 i1).state i2).state t =
        some ctx ∧ ctx.messages.length = 2) ∧
    lookupThread (adapter_call h3 ci3
        (adapter_call h2 ci2 (adapter_call h1 ci1 st0 i1).state i2).state i3).state t =
      lookupThread (adapter_call h2 ci2 (adapter_call h1 ci1 st0 i1).state i2).state t := by
  obtain ⟨c1, hc1, hm1⟩ := adapter_call_messages h1 ci1 st0 i1
  rw [ht1] at hc1
  rw [ht1, hfresh] at hm1
  have e1 : c1.messages.length = 1 := by
    simp only [List.nil_append] at hm1
    rw [hm1, hn1]
  obtain ⟨c2, hc2, hm2⟩ :=
    adapter_call_messages h2 ci2 (adapter_call h1 ci1 st0 i1).state i2
  rw [ht2] at hc2
  rw [ht2, hc1] at hm2
  constructor
  · refine ⟨c2, hc2, ?_⟩
    rw [hm2]
    simp [List.length_append, e1, hn2]
  · exact adapter_call_frame h3 ci3 _ i3 (Ne.symm ht3)

/-- Witness for C9 on two concrete turns for `t1` and one for `t2`. -/
theorem thread_state_accumulates_and_is_framed_witness :
    (∃ ctx, lookupThread
        (adapter_call (fun _ _ => Except.ok "ok") ⟨[], "sequential", []⟩
          (adapter_call (fun _ _ => Except.ok "ok") ⟨[], "sequential", []⟩ []
            ⟨"t1", [⟨"user", "hello"⟩], [⟨"user", "hello"⟩], false⟩).state
          ⟨"t1", [⟨"user", "hello"⟩, ⟨"user", "again"⟩], [⟨"user", "again"⟩],
            false⟩).state "t1" = some ctx ∧ ctx.messages.length = 2) ∧
    lookupThread (adapter_call (fun _ _ => Except.ok "ok") ⟨[], "sequential", []⟩
        (adapter_call (fun _ _ => Except.ok "ok") ⟨[], "sequential", []⟩
          (adapter_call (fun _ _ => Except.ok "ok") ⟨[], "sequential", []⟩ []
            ⟨"t1", [⟨"user", "hello"⟩], [⟨"user", "hello"⟩], false⟩).state
          ⟨"t1", [⟨"user", "hello"⟩, ⟨"user", "again"⟩], [⟨"user", "again"⟩],
            false⟩).state
        ⟨"t2", [⟨"user", "other"⟩], [⟨"user", "other"⟩], false⟩).state "t1" =
      lookupThread (adapter_call (fun _ _ => Except.ok "ok") ⟨[], "sequential", []⟩
        (adapter_call (fun _ _ => Except.ok "ok") ⟨[], "sequential", []⟩ []
          ⟨"t1", [⟨"user", "hello"⟩], [⟨"user", "hello"⟩], false⟩).state
        ⟨"t1", [⟨"user", "hello"⟩, ⟨"user", "again"⟩], [⟨"user", "again"⟩],
          false⟩).state "t1" :=
  thread_state_accumulates_and_is_framed _ _ _ _ _ _ _ _ _ _ _
    rfl rfl rfl rfl rfl (by decide)
